import Mathlib

/-!
# Verification of the pomodoro-cli timer (`bubble.go`)

A shallow embedding of the bubbletea `Update` function of `bubble.go`:
the session data model, the command handling on Enter, the key handling
(stop/quit), and the one-second tick state machine.

Durations (`timerDuration`, `remainingTime`) are modelled in whole seconds
as `Int` (the Go code only ever manipulates whole-second values:
`minutes * time.Minute` at start and `-= 1 * time.Second` per tick, so
`Milliseconds()` is the value times 1000 and `Seconds()` is the value
exactly).  The progress fraction `percent` (a Go `float64`) is modelled
as an exact rational; every value the program computes for it is a
ratio of integer millisecond counts.

Submitted command lines are modelled as `List Char` (the Go code takes
byte slices of the string; all commands of interest are ASCII).
`saveSessions` is an external effect: the whole development is
parametrised by a function `save : List session → Option String`
returning `none` on success and `some errMsg` on failure, mirroring the
Go `error` result.
-/

namespace Pomodoro

/-- The persisted record of one completed work session (the `session`
struct appended in `bubble.go`; its fields are taken from the composite
literal at the append site: `StartTime`, `EndTime`, `Duration`).
Instants are abstract clock values (`Nat`); `Duration` is in seconds. -/
structure session where
  startTime : Nat
  endTime : Nat
  duration : Int
deriving Repr, DecidableEq

/-- A calendar date, the result of Go `time.Parse(time.DateOnly, _)`. -/
structure date where
  year : Nat
  month : Nat
  day : Nat
deriving Repr, DecidableEq

/-- Go constant `workSession = "Work"`. -/
def workSession : String := "Work"

/-- Go constant `breakSession = "Break"`. -/
def breakSession : String := "Break"

/-- The bubbletea `model` of `bubble.go`, restricted to the fields the
`Update` logic reads or writes (the textarea, progress-bar and key-map
collaborators are external rendering state and are not modelled; the
submitted command line is carried on the Enter message instead of in a
textarea). -/
structure model where
  percent : ℚ
  timerDuration : Int
  remainingTime : Int
  startTime : Nat
  inSession : Bool
  opening : Bool
  closing : Bool
  sessionType : String
  err : String
  sessions : List session
  showSession : Bool
  printDifferentDate : Bool
  datePrint : date
deriving Repr, DecidableEq

/-- The four phases named by the specification, derived from the three
booleans of the model: `Idle` is `¬inSession`, `Opening` is
`inSession ∧ opening`, `Closing` is `inSession ∧ closing`, `Active` is
`inSession` with both flags off. -/
inductive phase where
  | Idle
  | Opening
  | Active
  | Closing
deriving Repr, DecidableEq

def model.phase (m : model) : phase :=
  if !m.inSession then .Idle
  else if m.opening then .Opening
  else if m.closing then .Closing
  else .Active

/-- `initialModel` of `bubble.go`: all engine fields are Go zero values;
`sessions` is `loadSessions()`, passed in here as the parameter `ss`. -/
def initialModel (ss : List session) : model :=
  { percent := 0, timerDuration := 0, remainingTime := 0, startTime := 0
    inSession := false, opening := false, closing := false
    sessionType := "", err := "", sessions := ss
    showSession := false, printDifferentDate := false
    datePrint := ⟨0, 0, 0⟩ }

/-- The key presses `Update` distinguishes: the Stop binding (`x`), the
quit keys `esc`/`ctrl+c` (`tea.KeyCtrlC`/`tea.KeyEsc`), the rune `q`
(matched by the Quit binding while in a session, but mapped to a plain
no-op by the fallthrough switch), Enter carrying the textarea content,
and any other key. -/
inductive keyInput where
  | stopKey
  | quitKey
  | qKey
  | enter (line : List Char)
  | otherKey
deriving Repr, DecidableEq

/-- A message delivered to `Update`: a key press or a one-second tick. -/
inductive msg where
  | key (k : keyInput)
  | tick
deriving Repr, DecidableEq

/-- The `tea.Cmd` returned by `Update`: nothing, a scheduled next tick
(`tickCmd()`), or `tea.Quit`. -/
inductive cmdR where
  | noCmd
  | tickCmd
  | quitCmd
deriving Repr, DecidableEq

/-- Numeric value of a decimal digit character. -/
def digitVal (c : Char) : Nat := c.toNat - '0'.toNat

/-- Value of a list of decimal digit characters. -/
def digitsToNat (cs : List Char) : Nat :=
  cs.foldl (fun acc c => acc * 10 + digitVal c) 0

/-- Modelled from the spec: `checkValidMinute` is called by `Update` but
its definition is not among the given sources.  Per §4.1: a line that is
exactly the single command letter yields minute count 0 (the caller
substitutes the default); a letter followed by a space and a decimal
number yields that number (0 again meaning "use default"); any other
suffix (non-numeric, negative, zero-with-garbage) is invalid, reported
as `none` (the Go version reports `ok = false` and sets the error
message). -/
def checkValidMinute (command : List Char) : Option Nat :=
  match command with
  | [_] => some 0
  | _ :: ' ' :: rest =>
      if rest ≠ [] ∧ rest.all Char.isDigit then some (digitsToNat rest) else none
  | _ => none

/-- Modelled from the Go standard library: `unicode.IsSpace` on the
characters `strings.TrimSpace` trims. -/
def isSpaceChar (c : Char) : Bool :=
  c = ' ' ∨ c = '\t' ∨ c = '\n' ∨ c = '\r'

/-- Modelled from the Go standard library: `strings.TrimSpace`. -/
def trimSpace (cs : List Char) : List Char :=
  ((cs.dropWhile isSpaceChar).reverse.dropWhile isSpaceChar).reverse

/-- Whether a year is a leap year (Gregorian rule). -/
def isLeap (y : Nat) : Bool :=
  y % 4 = 0 ∧ (y % 100 ≠ 0 ∨ y % 400 = 0)

/-- Number of days in a month of a given year. -/
def daysInMonth (y m : Nat) : Nat :=
  if m = 2 then (if isLeap y then 29 else 28)
  else if m = 4 ∨ m = 6 ∨ m = 9 ∨ m = 11 then 30
  else 31

/-- Modelled from the Go standard library: `time.Parse(time.DateOnly, s)`
for the layout `"2006-01-02"`: exactly four year digits, a dash, two
month digits, a dash, two day digits, nothing more; the month must lie
in 1..12 and the day in 1..daysInMonth (so invalid calendar dates such
as 2024-02-30 are rejected with an error, modelled as `none`). -/
def parseDateOnly (cs : List Char) : Option date :=
  match cs with
  | [y1, y2, y3, y4, '-', mo1, mo2, '-', d1, d2] =>
      if ([y1, y2, y3, y4, mo1, mo2, d1, d2].all Char.isDigit) then
        let y := digitsToNat [y1, y2, y3, y4]
        let mo := digitVal mo1 * 10 + digitVal mo2
        let d := digitVal d1 * 10 + digitVal d2
        if 1 ≤ mo ∧ mo ≤ 12 ∧ 1 ≤ d ∧ d ≤ daysInMonth y mo then
          some ⟨y, mo, d⟩
        else none
      else none
  | _ => none

/-- The `tea.KeyEnter` case of `Update` (`bubble.go` lines 95–179): the
submitted line has already been read out of the textarea, and `m.err`
has already been cleared by the enclosing switch.  `save` stands for
`saveSessions` (unused here but threaded for uniformity) and `now` for
`time.Now()`. -/
def handleCommand (now : Nat) (command : List Char) (m : model) :
    model × cmdR :=
  if command = ['q'] then (m, .quitCmd)
  else if command.head? = some 's' then
    match checkValidMinute command with
    | none => ({ m with err := "Invalid minute" }, .noCmd)
    | some n0 =>
        let numOfMinutes := if n0 = 0 then 25 else n0
        if !m.inSession then
          ({ m with startTime := now
                    sessionType := workSession
                    timerDuration := (numOfMinutes : Int) * 60
                    remainingTime := (numOfMinutes : Int) * 60 + 3
                    percent := 0
                    inSession := true
                    opening := true
                    closing := false }, .tickCmd)
        else (m, .noCmd)
  else if command.head? = some 'b' then
    match checkValidMinute command with
    | none => ({ m with err := "Invalid minute" }, .noCmd)
    | some n0 =>
        let numOfMinutes := if n0 = 0 then 5 else n0
        if !m.inSession then
          ({ m with startTime := now
                    sessionType := breakSession
                    timerDuration := (numOfMinutes : Int) * 60
                    remainingTime := (numOfMinutes : Int) * 60 + 3
                    percent := 0
                    inSession := true
                    opening := true
                    closing := false }, .tickCmd)
        else (m, .noCmd)
  else if command.head? = some 'l' then
    if command = ['l'] then
      ({ m with printDifferentDate := false, showSession := true }, .noCmd)
    else
      if (command.drop 1).head? ≠ some ' ' then
        ({ m with err := "Invalid command" }, .noCmd)
      else
        match parseDateOnly (trimSpace (command.drop 2)) with
        | none => ({ m with err := "Invalid date format" }, .noCmd)
        | some d =>
            ({ m with printDifferentDate := true, datePrint := d
                      showSession := true }, .noCmd)
  else ({ m with err := "Invalid command" }, .noCmd)

/-- The `tickMsg` case of `Update` (`bubble.go` lines 194–233).  `save`
models `saveSessions` (returning `some errMsg` on failure), `now` is the
`time.Now()` captured as `endSession`.  Comparisons mirror the source:
the opening test compares `Milliseconds()` (value × 1000), the closing
tests compare `Seconds()` (the value itself, exact on whole seconds). -/
def tickUpdate (save : List session → Option String) (now : Nat)
    (m : model) : model × cmdR :=
  if !m.inSession then (m, .noCmd)
  else
    let m := { m with remainingTime := m.remainingTime - 1 }
    if m.opening then
      if m.remainingTime * 1000 ≤ m.timerDuration * 1000 then
        ({ m with opening := false }, .tickCmd)
      else (m, .tickCmd)
    else if m.remainingTime ≤ -4 then
      let m := { m with closing := false, inSession := false }
      if m.sessionType = workSession then
        let newSessions :=
          m.sessions ++ [⟨m.startTime, now, m.timerDuration⟩]
        let m := { m with sessions := newSessions }
        match save newSessions with
        | some e => ({ m with err := e }, .noCmd)
        | none => (m, .noCmd)
      else (m, .noCmd)
    else if m.remainingTime ≤ 0 then
      ({ m with closing := true }, .tickCmd)
    else
      ({ m with percent :=
          1 - ((m.remainingTime * 1000 : Int) : ℚ)
              / ((m.timerDuration * 1000 : Int) : ℚ) }, .tickCmd)

/-- The `Update` function of `bubble.go` (lines 62–238) over the
modelled messages.  The key branch mirrors the source's control flow:
while in a session, Opening/Closing swallow every key; the Stop binding
ends the session; the Quit binding (`q`/`esc`/`ctrl+c`) quits; any other
key — Enter included — falls through to the prompt handling, which first
clears a pending session listing on Stop, then clears `m.err` and
dispatches on the key type. -/
def update (save : List session → Option String) (now : Nat)
    (msg : msg) (m : model) : model × cmdR :=
  match msg with
  | .key k =>
      if m.inSession ∧ (m.opening ∨ m.closing) then (m, .noCmd)
      else if m.inSession ∧ k = .stopKey then
        ({ m with inSession := false }, .noCmd)
      else if m.inSession ∧ (k = .quitKey ∨ k = .qKey) then (m, .quitCmd)
      else if m.showSession ∧ k = .stopKey then
        ({ m with showSession := false }, .noCmd)
      else
        let m := { m with err := "" }
        match k with
        | .quitKey => (m, .quitCmd)
        | .qKey => (m, .noCmd)
        | .enter line => handleCommand now line m
        | _ => (m, .noCmd)
  | .tick => tickUpdate save now m

/-- `n` consecutive one-second ticks (the model component only). -/
def runTicks (save : List session → Option String) (now : Nat)
    (n : Nat) (m : model) : model :=
  match n with
  | 0 => m
  | n + 1 => runTicks save now n (tickUpdate save now m).1

/-- A save function that always succeeds. -/
def saveOk : List session → Option String := fun _ => none

/-- The state produced by submitting the bare line `s` (Start Work with
the 25-minute default) from the initial idle model, with `time.Now()`
modelled as instant 100. -/
def startedWork25 : model :=
  (update saveOk 100 (.key (.enter ['s'])) (initialModel [])).1

/-- The state of the 25-minute work session once its 3-second pre-roll
has elapsed (3 ticks after `startedWork25`). -/
def work25AfterPreroll : model :=
  { percent := 0, timerDuration := 1500, remainingTime := 1500
    startTime := 100, inSession := true, opening := false, closing := false
    sessionType := "Work", err := "", sessions := []
    showSession := false, printDifferentDate := false, datePrint := ⟨0, 0, 0⟩ }

/-- The state of the 25-minute work session on its last Active tick
(1502 ticks after `startedWork25`): one second remains and the progress
fraction is 1499/1500. -/
def work25LastActive : model :=
  { work25AfterPreroll with remainingTime := 1, percent := 1499 / 1500 }

/-- A save function that always fails with the message `save failed`. -/
def saveFail : List session → Option String := fun _ => some "save failed"

/-- The 25-minute work session on its last Closing tick: the next tick
takes `remainingTime` to −4 and completes the session. -/
def workClosingLast : model :=
  { work25AfterPreroll with remainingTime := -3, closing := true }

/-- A 5-minute break session on its last Closing tick. -/
def breakClosingLast : model :=
  { work25AfterPreroll with sessionType := "Break", timerDuration := 300
                            remainingTime := -3, closing := true }

/-! ## Helper lemmas about tick runs -/

theorem runTicks_add (save : List session → Option String) (now : Nat)
    (a b : Nat) (m : model) :
    runTicks save now (a + b) m = runTicks save now b (runTicks save now a m) := by
  induction a generalizing m with
  | zero => simp [runTicks]
  | succ a ih =>
      have h : a + 1 + b = (a + b) + 1 := by omega
      rw [h]
      show runTicks save now (a + b) (tickUpdate save now m).1
         = runTicks save now b (runTicks save now (a + 1) m)
      rw [ih]
      rfl

/-- Closed form for a run of `k` ticks through the Active phase: as long
as strictly more than `k` seconds remain, each tick decrements the
remaining time and refreshes `percent` to
`1 − remaining·1000 / duration·1000`; all other fields are untouched. -/
theorem runTicks_active (save : List session → Option String) (now : Nat)
    (k : Nat) (m : model)
    (hin : m.inSession = true) (hop : m.opening = false)
    (hcl : m.closing = false) (hk : (k : Int) < m.remainingTime) :
    runTicks save now k m =
      { m with remainingTime := m.remainingTime - k
               percent := if k = 0 then m.percent else
                 1 - (((m.remainingTime - k) * 1000 : Int) : ℚ)
                     / ((m.timerDuration * 1000 : Int) : ℚ) } := by
  induction k generalizing m with
  | zero => simp [runTicks]
  | succ k ih =>
      have h1 : ¬ m.remainingTime - 1 ≤ -4 := by
        push_cast at hk; omega
      have h2 : ¬ m.remainingTime - 1 ≤ 0 := by
        push_cast at hk; omega
      show runTicks save now k (tickUpdate save now m).1 = _
      have hstep : (tickUpdate save now m).1 =
          { m with remainingTime := m.remainingTime - 1
                   percent := 1 - (((m.remainingTime - 1) * 1000 : Int) : ℚ)
                       / ((m.timerDuration * 1000 : Int) : ℚ) } := by
        simp [tickUpdate, hin, hop, h1, h2]
      rw [hstep]
      rw [ih { m with remainingTime := m.remainingTime - 1
                      percent := 1 - (((m.remainingTime - 1) * 1000 : Int) : ℚ)
                          / ((m.timerDuration * 1000 : Int) : ℚ) }
            hin hop hcl (by push_cast at hk ⊢; omega)]
      have h3 : m.remainingTime - 1 - (k : Int) = m.remainingTime - ((k : Int) + 1) := by
        omega
      rcases Nat.eq_zero_or_pos k with hk0 | hk0
      · subst hk0
        push_cast
        simp
      · have hkne : k ≠ 0 := by omega
        push_cast
        simp [hkne, h3]
        ring_nf

theorem phase_idle_iff (m : model) : m.phase = .Idle ↔ m.inSession = false := by
  cases hin : m.inSession <;> cases hop : m.opening <;> cases hcl : m.closing <;>
    simp [model.phase, hin, hop, hcl]

theorem phase_opening_iff (m : model) :
    m.phase = .Opening ↔ m.inSession = true ∧ m.opening = true := by
  cases hin : m.inSession <;> cases hop : m.opening <;> cases hcl : m.closing <;>
    simp [model.phase, hin, hop, hcl]

theorem phase_active_iff (m : model) :
    m.phase = .Active ↔
      m.inSession = true ∧ m.opening = false ∧ m.closing = false := by
  cases hin : m.inSession <;> cases hop : m.opening <;> cases hcl : m.closing <;>
    simp [model.phase, hin, hop, hcl]

theorem phase_closing_iff (m : model) :
    m.phase = .Closing ↔
      m.inSession = true ∧ m.opening = false ∧ m.closing = true := by
  cases hin : m.inSession <;> cases hop : m.opening <;> cases hcl : m.closing <;>
    simp [model.phase, hin, hop, hcl]

/-- Command handling on Enter never touches the session log: no branch
of the `tea.KeyEnter` case writes `m.sessions`. -/
theorem handleCommand_sessions (now : Nat) (line : List Char) (m : model) :
    (handleCommand now line m).1.sessions = m.sessions := by
  unfold handleCommand
  rcases hcv : checkValidMinute line with _ | n0 <;>
    rcases hpd : parseDateOnly (trimSpace (line.drop 2)) with _ | d <;>
      simp only [hcv, hpd] <;> split_ifs <;> rfl

theorem runTicks_three_startedWork25 :
    runTicks saveOk 200 3 startedWork25 = work25AfterPreroll := by
  decide

theorem runTicks_1502_startedWork25 :
    runTicks saveOk 200 1502 startedWork25 = work25LastActive := by
  have e : (1502 : Nat) = 3 + 1499 := by norm_num
  rw [e, runTicks_add, runTicks_three_startedWork25,
    runTicks_active saveOk 200 1499 work25AfterPreroll rfl rfl rfl
      (by norm_num [work25AfterPreroll])]
  simp only [work25AfterPreroll, work25LastActive, model.mk.injEq]
  norm_num

/-- C1: from `Start(Work, 25min)` (the bare `s` command), counting ticks
from 0 — so the tick numbered `25*60+3 − 1` is the `25*60+3`-rd tick —
the remaining time reaches 0 and the phase becomes Closing exactly on
that tick (one tick earlier the phase is still Active); exactly 4
further ticks reach Idle (3 further ticks are still Closing) and append
exactly one Session whose `duration` is 25 minutes (1500 seconds). -/
theorem C1_work25_tick_schedule :
    startedWork25.phase = .Opening ∧
    (runTicks saveOk 200 3 startedWork25).phase = .Active ∧
    (runTicks saveOk 200 (25 * 60 + 3 - 1) startedWork25).phase = .Active ∧
    (runTicks saveOk 200 (25 * 60 + 3) startedWork25).remainingTime = 0 ∧
    (runTicks saveOk 200 (25 * 60 + 3) startedWork25).phase = .Closing ∧
    (runTicks saveOk 200 (25 * 60 + 3) startedWork25).sessions = [] ∧
    (runTicks saveOk 200 (25 * 60 + 3 + 3) startedWork25).phase = .Closing ∧
    (runTicks saveOk 200 (25 * 60 + 3 + 4) startedWork25).phase = .Idle ∧
    (runTicks saveOk 200 (25 * 60 + 3 + 4) startedWork25).sessions =
      [⟨100, 200, 25 * 60⟩] := by
  have h1502 := runTicks_1502_startedWork25
  have h1503 : runTicks saveOk 200 (25 * 60 + 3) startedWork25
      = runTicks saveOk 200 1 work25LastActive := by
    have e : (25 * 60 + 3 : Nat) = 1502 + 1 := by norm_num
    rw [e, runTicks_add, h1502]
  have h1506 : runTicks saveOk 200 (25 * 60 + 3 + 3) startedWork25
      = runTicks saveOk 200 4 work25LastActive := by
    have e : (25 * 60 + 3 + 3 : Nat) = 1502 + 4 := by norm_num
    rw [e, runTicks_add, h1502]
  have h1507 : runTicks saveOk 200 (25 * 60 + 3 + 4) startedWork25
      = runTicks saveOk 200 5 work25LastActive := by
    have e : (25 * 60 + 3 + 4 : Nat) = 1502 + 5 := by norm_num
    rw [e, runTicks_add, h1502]
  have e1502 : (25 * 60 + 3 - 1 : Nat) = 1502 := by norm_num
  refine ⟨by decide, by rw [runTicks_three_startedWork25]; decide,
    by rw [e1502, h1502]; decide,
    by rw [h1503]; decide, by rw [h1503]; decide, by rw [h1503]; decide,
    by rw [h1506]; decide, by rw [h1507]; decide, by rw [h1507]; decide⟩

/-- C2 counterexample: in the Opening phase the Stop key is swallowed by
the `if m.opening || m.closing` guard, so Stop does not return the phase
to Idle there and the claim fails as stated: immediately after starting
a work session (phase Opening) the Stop key leaves the model unchanged. -/
theorem C2_cex_stop_ignored_during_opening :
    startedWork25.phase = .Opening ∧
    (update saveOk 100 (.key .stopKey) startedWork25).1 = startedWork25 ∧
    (update saveOk 100 (.key .stopKey) startedWork25).1.phase ≠ .Idle := by
  refine ⟨by decide, rfl, by decide⟩

/-- C2 amended: a Stop key press while the phase is Active immediately
returns the phase to Idle and appends no Session; while the phase is
Opening or Closing the Stop key is ignored (the model is unchanged, so
in particular the phase does not become Idle and nothing is appended). -/
theorem C2_stop_active_idle_appends_nothing
    (save : List session → Option String) (now : Nat) (m : model) :
    (m.phase = .Active →
      (update save now (.key .stopKey) m).1.phase = .Idle ∧
      (update save now (.key .stopKey) m).1.sessions = m.sessions) ∧
    (m.phase = .Opening ∨ m.phase = .Closing →
      (update save now (.key .stopKey) m).1 = m) := by
  constructor
  · intro hA
    obtain ⟨hin, hop, hcl⟩ := (phase_active_iff m).1 hA
    simp [update, model.phase, hin, hop, hcl]
  · rintro (hO | hC)
    · obtain ⟨hin, hop⟩ := (phase_opening_iff m).1 hO
      simp [update, hin, hop]
    · obtain ⟨hin, hop, hcl⟩ := (phase_closing_iff m).1 hC
      simp [update, hin, hop, hcl]

/-- Witness for the amended C2 theorem: after the pre-roll of the
25-minute work session (phase Active) the Stop key yields Idle and
leaves the empty session log empty; during the pre-roll (phase Opening)
the Stop key changes nothing. -/
theorem C2_stop_witness :
    ((update saveOk 100 (.key .stopKey) work25AfterPreroll).1.phase = .Idle ∧
     (update saveOk 100 (.key .stopKey) work25AfterPreroll).1.sessions
       = work25AfterPreroll.sessions) ∧
    (update saveOk 100 (.key .stopKey) startedWork25).1 = startedWork25 := by
  exact ⟨(C2_stop_active_idle_appends_nothing saveOk 100 work25AfterPreroll).1
      (by decide),
    (C2_stop_active_idle_appends_nothing saveOk 100 startedWork25).2
      (Or.inl (by decide))⟩

/-- C3: while the phase is not Idle (`inSession` is set), submitting a
start line (any line whose first character is `s` or `b`) leaves every
timer-engine field unchanged — phase, `sessionType`, `timerDuration`,
`remainingTime`, `startTime`, `percent` — appends no session record, and
schedules no tick (`tickCmd` is not returned). -/
theorem C3_start_noop_when_not_idle (save : List session → Option String)
    (now : Nat) (m : model) (line : List Char)
    (hphase : m.phase ≠ .Idle)
    (hsb : line.head? = some 's' ∨ line.head? = some 'b') :
    (update save now (.key (.enter line)) m).1.phase = m.phase ∧
    (update save now (.key (.enter line)) m).1.sessionType = m.sessionType ∧
    (update save now (.key (.enter line)) m).1.timerDuration = m.timerDuration ∧
    (update save now (.key (.enter line)) m).1.remainingTime = m.remainingTime ∧
    (update save now (.key (.enter line)) m).1.startTime = m.startTime ∧
    (update save now (.key (.enter line)) m).1.percent = m.percent ∧
    (update save now (.key (.enter line)) m).1.sessions = m.sessions ∧
    (update save now (.key (.enter line)) m).2 ≠ .tickCmd := by
  have hin : m.inSession = true := by
    cases h : m.inSession
    · exact absurd ((phase_idle_iff m).2 h) hphase
    · rfl
  have hq : ¬ line = ['q'] := by
    rintro rfl
    rcases hsb with h | h <;> simp at h
  cases hop : m.opening <;> cases hcl : m.closing
  case false.false =>
      rcases hsb with h | h <;>
        rcases hcv : checkValidMinute line with _ | n0 <;>
          simp [update, handleCommand, hq, h, hin, hop, hcl, hcv, model.phase]
  all_goals simp [update, hin, hop, hcl]

/-- Witness for C3: in the Opening phase of the freshly started
25-minute work session, submitting `b 5` changes no engine field. -/
theorem C3_witness :
    (update saveOk 300 (.key (.enter ['b', ' ', '5'])) startedWork25).1.timerDuration
        = startedWork25.timerDuration ∧
    (update saveOk 300 (.key (.enter ['b', ' ', '5'])) startedWork25).1.phase
        = startedWork25.phase := by
  have h := C3_start_noop_when_not_idle saveOk 300 startedWork25
    ['b', ' ', '5'] (by decide) (Or.inr (by decide))
  exact ⟨h.2.2.1, h.1⟩

/-- C4 counterexample: on the 25-minute work session, tick 1503 moves
the phase from Active to Closing, but that tick's branch returns before
the `percent` assignment, so `percent` stays at the previous tick's
value 1499/1500 and never equals 1.0. -/
theorem C4_cex_percent_not_one_at_closing :
    (runTicks saveOk 200 1502 startedWork25).phase = .Active ∧
    (runTicks saveOk 200 1503 startedWork25).phase = .Closing ∧
    (runTicks saveOk 200 1503 startedWork25).percent = 1499 / 1500 ∧
    (runTicks saveOk 200 1503 startedWork25).percent ≠ 1 := by
  have h1502 := runTicks_1502_startedWork25
  have h1503 : runTicks saveOk 200 1503 startedWork25
      = runTicks saveOk 200 1 work25LastActive := by
    have e : (1503 : Nat) = 1502 + 1 := by norm_num
    rw [e, runTicks_add, h1502]
  have hstep : runTicks saveOk 200 1 work25LastActive
      = { work25LastActive with remainingTime := 0, closing := true } := by
    show (tickUpdate saveOk 200 work25LastActive).1 = _
    simp [tickUpdate, work25LastActive, work25AfterPreroll]
  refine ⟨by rw [h1502]; decide, by rw [h1503, hstep]; decide, ?_, ?_⟩
  · rw [h1503, hstep]
    show work25LastActive.percent = 1499 / 1500
    simp [work25LastActive]
  · rw [h1503, hstep]
    show work25LastActive.percent ≠ 1
    simp [work25LastActive, work25AfterPreroll]
    norm_num

/-- C4 amended: across ticks taken while the phase is Active (with the
run invariant `percent = 1 − remaining·1000/duration·1000` and at least
one second remaining), `percent` is monotonically non-decreasing; the
tick that moves the phase from Active to Closing is exactly the one
taken with one second remaining, and on it `percent` is left unchanged
at `1 − 1000/(duration·1000)`, which is strictly below 1.0. -/
theorem C4_percent_monotone_active (save : List session → Option String)
    (now : Nat) (m : model)
    (hA : m.phase = .Active)
    (hdur : 0 < m.timerDuration)
    (hrem : 1 ≤ m.remainingTime)
    (hp : m.percent = 1 - ((m.remainingTime * 1000 : Int) : ℚ)
        / ((m.timerDuration * 1000 : Int) : ℚ)) :
    m.percent ≤ (update save now .tick m).1.percent ∧
    ((update save now .tick m).1.phase = .Closing ↔ m.remainingTime = 1) ∧
    ((update save now .tick m).1.phase = .Closing →
      (update save now .tick m).1.percent = m.percent ∧
      (update save now .tick m).1.percent ≠ 1) := by
  obtain ⟨hin, hop, hcl⟩ := (phase_active_iff m).1 hA
  have hden : (0 : ℚ) < ((m.timerDuration * 1000 : Int) : ℚ) := by
    push_cast
    positivity
  rcases eq_or_lt_of_le hrem with h1 | h2
  · -- one second remains: this tick enters Closing, percent untouched
    have hc1 : ¬ m.remainingTime - 1 ≤ -4 := by omega
    have hc2 : m.remainingTime - 1 ≤ 0 := by omega
    have hne : m.percent ≠ 1 := by
      rw [hp]
      intro hcontra
      have : ((m.remainingTime * 1000 : Int) : ℚ)
          / ((m.timerDuration * 1000 : Int) : ℚ) = 0 := by linarith
      rcases div_eq_zero_iff.1 this with h | h
      · have : m.remainingTime * 1000 = 0 := by exact_mod_cast h
        omega
      · exact absurd h (ne_of_gt hden)
    refine ⟨?_, ?_, ?_⟩ <;>
      simp [update, tickUpdate, hin, hop, hc1, hc2, model.phase, ← h1, hne]
  · -- more than one second remains: percent is refreshed and grows
    have hc1 : ¬ m.remainingTime - 1 ≤ -4 := by omega
    have hc2 : ¬ m.remainingTime - 1 ≤ 0 := by omega
    have hnum : (((m.remainingTime - 1) * 1000 : Int) : ℚ)
        ≤ ((m.remainingTime * 1000 : Int) : ℚ) := by
      push_cast
      linarith
    have hmono := (div_le_div_iff_of_pos_right hden).2 hnum
    have hredp : (update save now .tick m).1.percent
        = 1 - (((m.remainingTime - 1) * 1000 : Int) : ℚ)
          / ((m.timerDuration * 1000 : Int) : ℚ) := by
      simp [update, tickUpdate, hin, hop, hc1, hc2]
    have hredph : (update save now .tick m).1.phase = .Active := by
      simp [update, tickUpdate, hin, hop, hcl, hc1, hc2, model.phase]
    refine ⟨?_, ?_, ?_⟩
    · rw [hredp, hp]
      linarith
    · rw [hredph]
      simp
      omega
    · intro hcon
      rw [hredph] at hcon
      exact absurd hcon (by simp)

/-- Witness for the amended C4 theorem, at the last Active state of the
25-minute work session: the next tick does not decrease `percent` and
moves the phase to Closing. -/
theorem C4_percent_witness :
    work25LastActive.percent ≤ (update saveOk 200 .tick work25LastActive).1.percent ∧
    (update saveOk 200 .tick work25LastActive).1.phase = .Closing := by
  have h := C4_percent_monotone_active saveOk 200 work25LastActive (by decide)
    (by decide) (by decide)
    (by norm_num [work25LastActive, work25AfterPreroll])
  exact ⟨h.1, (h.2.1).2 (by decide)⟩

/-- C5: a step taken from any state whose current session is not a Work
session — in particular any Break session, even the tick that completes
its Closing phase — leaves the session log unchanged: only Work sessions
are ever appended. Quantifying over every message makes this hold along
every sequence of commands and ticks. -/
theorem C5_breaks_never_appended (save : List session → Option String)
    (now : Nat) (e : msg) (m : model)
    (hb : m.sessionType ≠ workSession) :
    (update save now e m).1.sessions = m.sessions := by
  cases e with
  | tick =>
      simp only [update, tickUpdate, hb, if_false]
      split_ifs <;> rfl
  | key k =>
      cases k with
      | enter line =>
          simp only [update]
          split_ifs <;>
            first
            | rfl
            | exact handleCommand_sessions now line { m with err := "" }
      | stopKey => simp only [update]; split_ifs <;> rfl
      | quitKey => simp only [update]; split_ifs <;> rfl
      | qKey => simp only [update]; split_ifs <;> rfl
      | otherKey => simp only [update]; split_ifs <;> rfl

/-- Witness for C5: the tick completing a Break session's Closing phase
returns to Idle without appending anything. -/
theorem C5_witness :
    breakClosingLast.sessionType ≠ workSession ∧
    (update saveOk 400 .tick breakClosingLast).1.sessions
      = breakClosingLast.sessions ∧
    (update saveOk 400 .tick breakClosingLast).1.phase = .Idle := by
  exact ⟨by decide,
    C5_breaks_never_appended saveOk 400 .tick breakClosingLast (by decide),
    by decide⟩

/-- C6: when the tick that completes a Work session finds the store
append failing (`save` returns an error), the error message is surfaced
in the user-visible `err` field, the engine still reaches Idle, and the
completed session remains appended — the transition is not rolled back
and the step is a total function (no crash). -/
theorem C6_save_failure_surfaced (save : List session → Option String)
    (now : Nat) (m : model) (e : String)
    (hw : m.sessionType = workSession)
    (hin : m.inSession = true)
    (hop : m.opening = false)
    (hrem : m.remainingTime - 1 ≤ -4)
    (hfail : save (m.sessions ++ [⟨m.startTime, now, m.timerDuration⟩]) = some e) :
    (update save now .tick m).1.err = e ∧
    (update save now .tick m).1.phase = .Idle ∧
    (update save now .tick m).1.sessions
      = m.sessions ++ [⟨m.startTime, now, m.timerDuration⟩] := by
  simp [update, tickUpdate, hin, hop, hrem, hw, hfail, model.phase]

/-- Witness for C6: the failing store on the completing tick of the
25-minute work session sets the error string and yields Idle. -/
theorem C6_witness :
    (update saveFail 777 .tick workClosingLast).1.err = "save failed" ∧
    (update saveFail 777 .tick workClosingLast).1.phase = .Idle := by
  have h := C6_save_failure_surfaced saveFail 777 workClosingLast "save failed"
    (by decide) (by decide) (by decide) (by decide) rfl
  exact ⟨h.1, h.2.1⟩

/-- C10: on the Closing→Idle tick of a Work session the completed record
is appended to the in-memory list before `saveSessions` is attempted (the
save is called on the already-appended list, whose failure message lands
in `err`), so even with a failing save the new session is present in the
state's list, and a subsequent `l` command in the same process shows a
listing over exactly that list. -/
theorem C10_append_precedes_save (save : List session → Option String)
    (now now2 : Nat) (m : model) (e : String)
    (hw : m.sessionType = workSession)
    (hin : m.inSession = true)
    (hop : m.opening = false)
    (hrem : m.remainingTime - 1 ≤ -4)
    (hfail : save (m.sessions ++ [⟨m.startTime, now, m.timerDuration⟩]) = some e) :
    (update save now .tick m).1.sessions
        = m.sessions ++ [⟨m.startTime, now, m.timerDuration⟩] ∧
    (update save now .tick m).1.err = e ∧
    (update save now2 (.key (.enter ['l'])) (update save now .tick m).1).1.sessions
        = m.sessions ++ [⟨m.startTime, now, m.timerDuration⟩] ∧
    (update save now2 (.key (.enter ['l'])) (update save now .tick m).1).1.showSession
        = true := by
  have hstep : (update save now .tick m).1
      = { m with remainingTime := m.remainingTime - 1
                 closing := false, inSession := false
                 sessions := m.sessions ++ [⟨m.startTime, now, m.timerDuration⟩]
                 err := e } := by
    simp [update, tickUpdate, hin, hop, hrem, hw, hfail]
  rw [hstep]
  refine ⟨rfl, rfl, ?_, ?_⟩ <;> simp [update, handleCommand]

/-- Witness for C10: with the always-failing store, the completing tick
appends the session and a following `l` command opens the listing. -/
theorem C10_witness :
    (update saveFail 888 .tick workClosingLast).1.sessions
        = workClosingLast.sessions
          ++ [⟨workClosingLast.startTime, 888, workClosingLast.timerDuration⟩] ∧
    (update saveFail 999 (.key (.enter ['l']))
        (update saveFail 888 .tick workClosingLast).1).1.showSession = true := by
  have h := C10_append_precedes_save saveFail 888 999 workClosingLast "save failed"
    (by decide) (by decide) (by decide) (by decide) rfl
  exact ⟨h.1, h.2.2.2⟩

/-- `model.phase` depends only on the three session booleans. -/
theorem phase_congr (a b : model) (h1 : a.inSession = b.inSession)
    (h2 : a.opening = b.opening) (h3 : a.closing = b.closing) :
    a.phase = b.phase := by
  simp [model.phase, h1, h2, h3]

/-- Handling a list command (any line whose first character is `l`)
touches only `err`, `showSession`, `printDifferentDate` and `datePrint`:
every timer-engine field survives unchanged. -/
theorem handleCommand_list_frame (now : Nat) (line : List Char) (m : model)
    (hl : line.head? = some 'l') :
    (handleCommand now line m).1.inSession = m.inSession ∧
    (handleCommand now line m).1.opening = m.opening ∧
    (handleCommand now line m).1.closing = m.closing ∧
    (handleCommand now line m).1.sessionType = m.sessionType ∧
    (handleCommand now line m).1.timerDuration = m.timerDuration ∧
    (handleCommand now line m).1.remainingTime = m.remainingTime ∧
    (handleCommand now line m).1.startTime = m.startTime ∧
    (handleCommand now line m).1.percent = m.percent ∧
    (handleCommand now line m).1.sessions = m.sessions := by
  have hq : ¬ line = ['q'] := by rintro rfl; simp at hl
  unfold handleCommand
  rcases hpd : parseDateOnly (trimSpace (line.drop 2)) with _ | d <;>
    simp [hq, hl, hpd] <;> split_ifs <;> simp

/-- C7 counterexample: the claim says List can be invoked only while
Idle, but a submitted `l` line is also processed while the phase is
Active (mid-session command lines fall through to the prompt handler),
opening the session listing. -/
theorem C7_cex_list_accepted_while_active :
    work25AfterPreroll.phase = .Active ∧
    (update saveOk 0 (.key (.enter ['l'])) work25AfterPreroll).1.showSession
      = true := by
  exact ⟨by decide, by decide⟩

/-- C7 amended: handling a submitted `l`/`l <date>` line never mutates
any timer-engine field (phase, sessionType, timerDuration,
remainingTime, startTime, percent); during Opening and Closing the line
is swallowed entirely (model unchanged), and a bare `l` submitted while
Idle or Active opens the session listing — so List is accepted while
Idle or Active, not only while Idle. -/
theorem C7_list_frame (save : List session → Option String)
    (now : Nat) (m : model) (line : List Char)
    (hl : line.head? = some 'l') :
    ((m.phase = .Opening ∨ m.phase = .Closing) →
      (update save now (.key (.enter line)) m).1 = m) ∧
    (update save now (.key (.enter line)) m).1.phase = m.phase ∧
    (update save now (.key (.enter line)) m).1.sessionType = m.sessionType ∧
    (update save now (.key (.enter line)) m).1.timerDuration = m.timerDuration ∧
    (update save now (.key (.enter line)) m).1.remainingTime = m.remainingTime ∧
    (update save now (.key (.enter line)) m).1.startTime = m.startTime ∧
    (update save now (.key (.enter line)) m).1.percent = m.percent ∧
    (line = ['l'] → (m.phase = .Idle ∨ m.phase = .Active) →
      (update save now (.key (.enter line)) m).1.showSession = true) := by
  by_cases hb : (m.inSession ∧ (m.opening ∨ m.closing) : Prop)
  · have hred : update save now (.key (.enter line)) m = (m, .noCmd) := by
      simp [update, hb]
    rw [hred]
    refine ⟨fun _ => rfl, rfl, rfl, rfl, rfl, rfl, rfl, fun _ hIA => ?_⟩
    obtain ⟨hin, hoc⟩ := hb
    rcases hIA with hI | hA
    · rw [phase_idle_iff] at hI
      rw [hI] at hin
      exact absurd hin (by simp)
    · obtain ⟨_, hop, hcl⟩ := (phase_active_iff m).1 hA
      rw [hop, hcl] at hoc
      exact absurd hoc (by simp)
  · have hred : update save now (.key (.enter line)) m
        = handleCommand now line { m with err := "" } := by
      simp [update, hb]
    have hf := handleCommand_list_frame now line { m with err := "" } hl
    rw [hred]
    refine ⟨fun hOC => ?_, ?_, hf.2.2.2.1, hf.2.2.2.2.1, hf.2.2.2.2.2.1,
      hf.2.2.2.2.2.2.1, hf.2.2.2.2.2.2.2.1, fun hll _ => ?_⟩
    · exfalso
      rcases hOC with hO | hC
      · obtain ⟨hin, hop⟩ := (phase_opening_iff m).1 hO
        exact hb ⟨by simp [hin], Or.inl (by simp [hop])⟩
      · obtain ⟨hin, _, hcl⟩ := (phase_closing_iff m).1 hC
        exact hb ⟨by simp [hin], Or.inr (by simp [hcl])⟩
    · exact phase_congr _ _ hf.1 hf.2.1 hf.2.2.1
    · rw [hll]
      simp [handleCommand]

/-- Witness for the amended C7 theorem: a bare `l` in the Idle initial
state changes no engine field and opens the listing. -/
theorem C7_witness :
    (update saveOk 5 (.key (.enter ['l'])) (initialModel [])).1.remainingTime
        = (initialModel []).remainingTime ∧
    (update saveOk 5 (.key (.enter ['l'])) (initialModel [])).1.showSession
        = true := by
  have h := C7_list_frame saveOk 5 (initialModel []) ['l'] (by decide)
  exact ⟨h.2.2.2.2.1, h.2.2.2.2.2.2.2 rfl (Or.inl (by decide))⟩

/-- C8: a list line with a non-empty suffix that either does not start
with a space or whose trimmed remainder is not a valid ISO calendar date
yields an Invalid outcome: an error message is shown, no listing opens,
and no command is scheduled; in particular `l 2024-02-30` (February 30
does not exist) is rejected by the date parser rather than crashing. -/
theorem C8_list_invalid_dates (now : Nat) (m : model) (suffix : List Char)
    (hne : suffix ≠ [])
    (h : ¬ suffix.head? = some ' '
        ∨ parseDateOnly (trimSpace (suffix.drop 1)) = none) :
    ((handleCommand now ('l' :: suffix) m).1.err = "Invalid command" ∨
     (handleCommand now ('l' :: suffix) m).1.err = "Invalid date format") ∧
    (handleCommand now ('l' :: suffix) m).1.showSession = m.showSession ∧
    (handleCommand now ('l' :: suffix) m).2 = .noCmd := by
  have hq : ¬ ('l' :: suffix) = ['q'] := by simp
  have hll : ¬ ('l' :: suffix) = ['l'] := by simp [hne]
  unfold handleCommand
  by_cases hsp : suffix.head? = some ' '
  · rcases h with h | hpd
    · exact absurd hsp h
    · have hdrop : ('l' :: suffix).drop 2 = suffix.drop 1 := rfl
      have hpd2 : parseDateOnly (trimSpace suffix.tail) = none := by
        rw [← List.drop_one]
        exact hpd
      simp [hq, hll, hsp, hdrop, hpd, hpd2]
  · simp [hq, hll, hsp]

/-- Witness for C8: the well-formed but impossible date `2024-02-30`. -/
theorem C8_witness :
    ((handleCommand 0 ('l' :: " 2024-02-30".toList) (initialModel [])).1.err
        = "Invalid command" ∨
     (handleCommand 0 ('l' :: " 2024-02-30".toList) (initialModel [])).1.err
        = "Invalid date format") ∧
    (handleCommand 0 ('l' :: " 2024-02-30".toList) (initialModel [])).1.showSession
        = (initialModel []).showSession ∧
    (handleCommand 0 ('l' :: " 2024-02-30".toList) (initialModel [])).2
        = .noCmd :=
  C8_list_invalid_dates 0 (initialModel []) (" 2024-02-30".toList)
    (by decide) (Or.inr (by decide))

/-- C9: from an Idle state, `s <digits>`/`b <digits>` start a Work/Break
session of that many minutes, where an explicit value of 0 is replaced
by the default (25 for work, 5 for break); the bare lines `s` and `b`
start sessions of 25 and 5 minutes; starting enters the Opening phase
and schedules the tick loop. -/
theorem C9_start_minutes (now : Nat) (m : model)
    (hin : m.inSession = false) (ds : List Char)
    (hne : ds ≠ []) (hdig : ds.all Char.isDigit) :
    ((handleCommand now ('s' :: ' ' :: ds) m).1.sessionType = workSession ∧
     (handleCommand now ('s' :: ' ' :: ds) m).1.timerDuration
        = ((if digitsToNat ds = 0 then 25 else digitsToNat ds : Nat) : Int) * 60 ∧
     (handleCommand now ('s' :: ' ' :: ds) m).1.remainingTime
        = ((if digitsToNat ds = 0 then 25 else digitsToNat ds : Nat) : Int) * 60 + 3 ∧
     (handleCommand now ('s' :: ' ' :: ds) m).1.phase = .Opening ∧
     (handleCommand now ('s' :: ' ' :: ds) m).2 = .tickCmd) ∧
    ((handleCommand now ('b' :: ' ' :: ds) m).1.sessionType = breakSession ∧
     (handleCommand now ('b' :: ' ' :: ds) m).1.timerDuration
        = ((if digitsToNat ds = 0 then 5 else digitsToNat ds : Nat) : Int) * 60 ∧
     (handleCommand now ('b' :: ' ' :: ds) m).1.phase = .Opening) ∧
    ((handleCommand now ['s'] m).1.timerDuration = 25 * 60 ∧
     (handleCommand now ['s'] m).1.phase = .Opening) ∧
    ((handleCommand now ['b'] m).1.timerDuration = 5 * 60 ∧
     (handleCommand now ['b'] m).1.phase = .Opening) := by
  refine ⟨⟨?_, ?_, ?_, ?_, ?_⟩, ⟨?_, ?_, ?_⟩, ⟨?_, ?_⟩, ⟨?_, ?_⟩⟩ <;>
    simp [handleCommand, checkValidMinute, hne, hdig, hin, model.phase]

/-- Witness for C9: `s 42` gives 42 minutes, bare `s` gives 25 minutes,
`b 0` falls back to the 5-minute break default. -/
theorem C9_witness :
    (handleCommand 0 ['s', ' ', '4', '2'] (initialModel [])).1.timerDuration
        = 2520 ∧
    (handleCommand 0 ['s'] (initialModel [])).1.timerDuration = 1500 ∧
    (handleCommand 0 ['b', ' ', '0'] (initialModel [])).1.timerDuration = 300 := by
  have h42 := C9_start_minutes 0 (initialModel []) rfl ['4', '2']
    (by decide) (by decide)
  have h0 := C9_start_minutes 0 (initialModel []) rfl ['0']
    (by decide) (by decide)
  have e42 : digitsToNat ['4', '2'] = 42 := by decide
  have e0 : digitsToNat ['0'] = 0 := by decide
  have t1 := h42.1.2.1
  rw [e42] at t1
  have t2 := h42.2.2.1.1
  have t3 := h0.2.1.2.1
  rw [e0] at t3
  norm_num at t1 t2 t3
  exact ⟨t1, t2, t3⟩

end Pomodoro
